import Mathlib

/-!
Shallow embedding of `src/auth/config.ts`: the provider registry builder,
the `providerMap` projection, and the four auth callbacks
(`authorize` of the Google One Tap credentials provider, `signIn`,
`redirect`, `session`, `jwt`).

JavaScript conventions are made explicit:
- `process.env.X` is an `Option String` (`none` = variable unset);
  JS truthiness of such a value is `truthy` below (unset and `""` are falsy).
- code that can throw is embedded in `Except String`; a total Lean function
  models code that cannot throw.
- collaborators that live outside this module (the fetch call to the Google
  tokeninfo endpoint, `getUuid`, `getIsoTimestr`, `getClientIp`, `saveUser`)
  are parameters of the embedded functions.
-/

namespace AuthConfig

/-- JS truthiness of an optional string value (environment variable or JSON
string field): `undefined` and `""` are falsy, every other string is truthy. -/
def truthy : Option String → Bool
  | none => false
  | some s => s != ""

/-- JS test `x === "true"` on an optional environment variable. -/
def flagTrue : Option String → Bool
  | none => false
  | some s => s == "true"

/-- JS coercion of a possibly-undefined string to a string, as performed by
`x || ""` and by `Array.prototype.join` on undefined elements. -/
def jsStr : Option String → String
  | none => ""
  | some s => s

/-- The environment variables read by `src/auth/config.ts`. -/
structure Env where
  NEXT_PUBLIC_AUTH_GOOGLE_ONE_TAP_ENABLED : Option String
  NEXT_PUBLIC_AUTH_GOOGLE_ID : Option String
  NEXT_PUBLIC_AUTH_GOOGLE_ENABLED : Option String
  AUTH_GOOGLE_ID : Option String
  AUTH_GOOGLE_SECRET : Option String
  NEXT_PUBLIC_AUTH_GITHUB_ENABLED : Option String
  AUTH_GITHUB_ID : Option String
  AUTH_GITHUB_SECRET : Option String
deriving Repr, DecidableEq

/-- A provider descriptor pushed onto the module-level `providers` list:
the One Tap credentials provider, or an OAuth provider built from a client
id and secret. -/
inductive Provider where
  | credentials (id name : String)
  | google (clientId clientSecret : String)
  | github (clientId clientSecret : String)
deriving Repr, DecidableEq

/-- The module-level `providers` list of `src/auth/config.ts`, built by the
three conditional `providers.push(...)` blocks, in source order:
Google One Tap, Google, GitHub. -/
def providers (env : Env) : List Provider :=
  let ps : List Provider := []
  let ps :=
    if flagTrue env.NEXT_PUBLIC_AUTH_GOOGLE_ONE_TAP_ENABLED &&
        truthy env.NEXT_PUBLIC_AUTH_GOOGLE_ID then
      ps ++ [Provider.credentials "google-one-tap" "google-one-tap"]
    else ps
  let ps :=
    if flagTrue env.NEXT_PUBLIC_AUTH_GOOGLE_ENABLED &&
        truthy env.AUTH_GOOGLE_ID && truthy env.AUTH_GOOGLE_SECRET then
      ps ++ [Provider.google (jsStr env.AUTH_GOOGLE_ID) (jsStr env.AUTH_GOOGLE_SECRET)]
    else ps
  let ps :=
    if flagTrue env.NEXT_PUBLIC_AUTH_GITHUB_ENABLED &&
        truthy env.AUTH_GITHUB_ID && truthy env.AUTH_GITHUB_SECRET then
      ps ++ [Provider.github (jsStr env.AUTH_GITHUB_ID) (jsStr env.AUTH_GITHUB_SECRET)]
    else ps
  ps

/-- An `{id, name}` projection of a provider, the element type of
`providerMap`. -/
structure ProviderInfo where
  id : String
  name : String
deriving Repr, DecidableEq

/-- Modelled from the spec: the id and display name of the Google and GitHub
OAuth providers are fixed by the third-party next-auth library
(`GoogleProvider` and `GitHubProvider` are not part of this repository);
the credentials provider carries the id and name given at its construction.
This is the `providerData` lookup the `providerMap` mapping performs. -/
def providerData : Provider → ProviderInfo
  | .credentials i n => ⟨i, n⟩
  | .google _ _ => ⟨"google", "Google"⟩
  | .github _ _ => ⟨"github", "GitHub"⟩

/-- The exported `providerMap`: each provider normalized to `id`/`name` and
entries whose id is `"google-one-tap"` filtered out. -/
def providerMap (env : Env) : List ProviderInfo :=
  ((providers env).map providerData).filter (fun p => p.id != "google-one-tap")

/-! URL model for the `redirect` callback. -/

/-- Characters that terminate the host portion of an absolute URL. -/
def hostEnd (c : Char) : Bool := c == '/' || c == '?' || c == '#'

/-- Boolean prefix test on character lists; `strStartsWith` below models the
JS `String.prototype.startsWith` used by `redirect`. -/
def isPrefixB : List Char → List Char → Bool
  | [], _ => true
  | _ :: _, [] => false
  | p :: ps, s :: ss => p == s && isPrefixB ps ss

/-- JS `s.startsWith(p)`. -/
def strStartsWith (s p : String) : Bool := isPrefixB p.data s.data

/-- JS `s.endsWith(p)`. -/
def strEndsWith (s p : String) : Bool := isPrefixB p.data.reverse s.data.reverse

/-- The components of a parsed absolute URL: scheme, host (authority up to
the first `/`, `?` or `#`) and the remaining characters. -/
structure URLRec where
  scheme : List Char
  host : List Char
  tail : List Char
deriving Repr, DecidableEq

/-- The `origin` property of a parsed URL: `scheme ++ "://" ++ host`,
never carrying a path or a trailing slash. -/
def URLRec.origin (u : URLRec) : String :=
  ⟨u.scheme ++ (':' :: '/' :: '/' :: u.host)⟩

/-- Splits the characters following the scheme marker into host and tail;
fails when the host is empty. -/
def parseAfter (scheme r : List Char) : Option URLRec :=
  if (r.takeWhile (fun c => !hostEnd c)).isEmpty then none
  else
    some ⟨scheme, r.takeWhile (fun c => !hostEnd c),
      r.drop (r.takeWhile (fun c => !hostEnd c)).length⟩

/-- Modelled from the spec: the WHATWG `new URL(url)` constructor invoked by
the `redirect` callback is platform code, not part of this repository.
The model parses absolute `http://` and `https://` URLs with a nonempty
host and fails (the constructor throws a `TypeError`) on every other
string; it keeps the host verbatim (no case or default-port
normalization, which the claims under verification do not exercise). -/
def parseURL (s : String) : Option URLRec :=
  if strStartsWith s "https://" then parseAfter "https".data (s.data.drop 8)
  else if strStartsWith s "http://" then parseAfter "http".data (s.data.drop 7)
  else none

/-- The `redirect` callback: relative callback URLs are prefixed with
`baseUrl`; an absolute URL whose origin equals `baseUrl` passes through;
any other parseable URL is replaced by `baseUrl`; `new URL(url)` throws on
everything else, which surfaces as `Except.error`. -/
def redirect (url baseUrl : String) : Except String String :=
  if strStartsWith url "/" then Except.ok (baseUrl ++ url)
  else
    match parseURL url with
    | some u => if u.origin = baseUrl then Except.ok url else Except.ok baseUrl
    | none => Except.error "TypeError [ERR_INVALID_URL]: Invalid URL"

/-! One Tap `authorize`. -/

/-- An instant produced by `new Date()`. -/
structure Date where
  ms : Nat
deriving Repr, DecidableEq

/-- The credentials object handed to `authorize`; the provider declares a
single text field `credential`. -/
structure Credentials where
  credential : String
deriving Repr, DecidableEq

/-- The JSON claims of the Google tokeninfo response that `authorize`
destructures. `email_verified` is kept as the JS truthiness of that claim. -/
structure Payload where
  email : Option String
  sub : Option String
  given_name : Option String
  family_name : Option String
  email_verified : Bool
  picture : Option String
deriving Repr, DecidableEq

/-- The result of the `fetch` call: the `ok` flag and the outcome of
`response.json()` (`Except.error` when the body is not JSON, `Option` for a
JSON `null` body, which is the only falsy payload). -/
structure FetchResponse where
  ok : Bool
  json : Except String (Option Payload)

/-- The URL string built for the tokeninfo verification call. -/
def tokeninfoURL (token : String) : String :=
  "https://oauth2.googleapis.com/tokeninfo?id_token=" ++ token

/-- The user object `authorize` returns on success; fields follow the
next-auth `User` shape, with absent JSON claims kept as `none`. -/
structure AuthUser where
  id : Option String
  name : Option String
  email : Option String
  image : Option String
  emailVerified : Option Date
deriving Repr, DecidableEq

/-- The `authorize` function of the Google One Tap credentials provider.
`fetch` is the outbound HTTP collaborator, `now` the value of `new Date()`.
`credentials!.credential` throws a `TypeError` when `credentials` is
undefined, and `response.json()` throws when the body is not JSON; both
surface as `Except.error`. Every guarded failure returns `Except.ok none`
(the JS `null`). -/
def authorize (env : Env) (fetch : String → FetchResponse) (now : Date)
    (credentials : Option Credentials) : Except String (Option AuthUser) :=
  if !truthy env.NEXT_PUBLIC_AUTH_GOOGLE_ID then Except.ok none
  else
    match credentials with
    | none => Except.error "TypeError: Cannot read properties of undefined"
    | some c =>
      let response := fetch (tokeninfoURL c.credential)
      if !response.ok then Except.ok none
      else
        match response.json with
        | Except.error e => Except.error e
        | Except.ok none => Except.ok none
        | Except.ok (some payload) =>
          if !truthy payload.email then Except.ok none
          else
            Except.ok (some
              { id := payload.sub
                name := some (jsStr payload.given_name ++ " " ++ jsStr payload.family_name)
                email := payload.email
                image := payload.picture
                emailVerified := if payload.email_verified then some now else none })

/-! The `signIn`, `session` and `jwt` callbacks. -/

/-- The `signIn` callback: `isAllowedToSignIn` is the constant `true`, so the
callback always allows the sign-in. Its arguments are unused. -/
def signInCallback (_user : Option AuthUser) (_account : Option Unit) : Bool :=
  let isAllowedToSignIn := true
  if isAllowedToSignIn then true else false

/-- The reduced user projection attached to the session token by `jwt`. -/
structure UserProj where
  uuid : String
  email : String
  nickname : String
  avatar_url : String
  created_at : String
deriving Repr, DecidableEq

/-- The JWT token object; `sub` stands in for the framework-owned claims and
`user` is the projection this module attaches. -/
structure Token where
  sub : Option String
  user : Option UserProj
deriving Repr, DecidableEq

/-- The session object shaped by the `session` callback; `expires` stands in
for the framework-owned fields. -/
structure Session where
  user : Option UserProj
  expires : String
deriving Repr, DecidableEq

/-- The `session` callback: copies `token.user` onto the session when the
token and its `user` field are truthy, and returns the session. -/
def sessionCallback (session : Session) (token : Option Token) : Session :=
  match token with
  | some t =>
    match t.user with
    | some u => { session with user := some u }
    | none => session
  | none => session

/-- The account object handed to `jwt` on first sign-in. -/
structure Account where
  type : String
  provider : String
  providerAccountId : String
deriving Repr, DecidableEq

/-- The local `User` record (`@/types/user`) built by `jwt` and passed to
`saveUser`. -/
structure DbUser where
  uuid : String
  email : String
  nickname : String
  avatar_url : String
  signin_type : String
  signin_provider : String
  signin_openid : String
  created_at : String
  signin_ip : String
deriving Repr, DecidableEq

/-- The collaborators of the `jwt` callback: `getUuid`, `getIsoTimestr`,
`getClientIp` (await of it can throw) and `saveUser` (can throw). -/
structure JwtDeps where
  uuid : String
  now : String
  clientIp : Except String String
  saveUser : DbUser → Except String DbUser

/-- The `dbUser` record literal built inside `jwt` from the signed-in user,
the account and the collaborators. -/
def mkDbUser (deps : JwtDeps) (u : AuthUser) (a : Account) (ip : String) : DbUser :=
  { uuid := deps.uuid
    email := jsStr u.email
    nickname := jsStr u.name
    avatar_url := jsStr u.image
    signin_type := a.type
    signin_provider := a.provider
    signin_openid := a.providerAccountId
    created_at := deps.now
    signin_ip := ip }

/-- The projection of a saved user attached to `token.user`. -/
def userProjOf (saved : DbUser) : UserProj :=
  { uuid := saved.uuid
    email := saved.email
    nickname := saved.nickname
    avatar_url := saved.avatar_url
    created_at := saved.created_at }

/-- The body of the outer `try` of the `jwt` callback. The save is wrapped
in an inner `try` whose `catch` only logs, so a `saveUser` failure falls
through to `return token`; a `getClientIp` failure escapes to the outer
`catch`. -/
def jwtInner (deps : JwtDeps) (token : Token) (user : Option AuthUser)
    (account : Option Account) : Except String Token :=
  match user, account with
  | some u, some a =>
    if truthy u.email then
      match deps.clientIp with
      | Except.error e => Except.error e
      | Except.ok ip =>
        match deps.saveUser (mkDbUser deps u a ip) with
        | Except.ok savedUser =>
          Except.ok { token with user := some (userProjOf savedUser) }
        | Except.error _ => Except.ok token
    else Except.ok token
  | _, _ => Except.ok token

/-- The `jwt` callback: the outer `catch` turns any escaped error into a log
line and returns the token unchanged, so the callback as a whole is total. -/
def jwt (deps : JwtDeps) (token : Token) (user : Option AuthUser)
    (account : Option Account) : Token :=
  match jwtInner deps token user account with
  | Except.ok t => t
  | Except.error _ => token

/-- Boolean success test on an embedded JS computation. -/
def exceptIsOk {α : Type} : Except String α → Bool
  | Except.ok _ => true
  | Except.error _ => false

/-- The failure condition named by the spec for One Tap `authorize`: no
Google client id configured, the HTTP verification call not ok, an
empty/absent payload, or a payload without an email (the latter three as
reached with a credentials object present). -/
def oneTapFailure (env : Env) (fetch : String → FetchResponse)
    (credentials : Option Credentials) : Bool :=
  !truthy env.NEXT_PUBLIC_AUTH_GOOGLE_ID ||
    (match credentials with
     | none => false
     | some c =>
       let response := fetch (tokeninfoURL c.credential)
       !response.ok ||
         (match response.json with
          | Except.ok none => true
          | Except.ok (some payload) => !truthy payload.email
          | Except.error _ => false))

/-- Decidable equality on embedded JS results, used to evaluate the
callbacks on concrete inputs. -/
instance {e a : Type} [DecidableEq e] [DecidableEq a] : DecidableEq (Except e a)
  | Except.ok x, Except.ok y =>
    if h : x = y then isTrue (by rw [h]) else isFalse (by simp [h])
  | Except.ok _, Except.error _ => isFalse (by simp)
  | Except.error _, Except.ok _ => isFalse (by simp)
  | Except.error x, Except.error y =>
    if h : x = y then isTrue (by rw [h]) else isFalse (by simp [h])

/-! Helper lemmas about the URL model. -/

theorem isPrefixB_cons {c : Char} {ps l : List Char}
    (h : isPrefixB (c :: ps) l = true) :
    ∃ t, l = c :: t ∧ isPrefixB ps t = true := by
  cases l with
  | nil => simp [isPrefixB] at h
  | cons a t =>
    simp only [isPrefixB, Bool.and_eq_true, beq_iff_eq] at h
    exact ⟨t, by rw [h.1], h.2⟩

theorem parseURL_head {s : String} {u : URLRec} (h : parseURL s = some u) :
    ∃ t, s.data = 'h' :: t := by
  unfold parseURL at h
  split at h
  · next h1 =>
    have h1' : isPrefixB ('h' :: "ttps://".data) s.data = true := h1
    obtain ⟨t, hs, -⟩ := isPrefixB_cons h1'
    exact ⟨t, hs⟩
  · split at h
    · next h2 =>
      have h2' : isPrefixB ('h' :: "ttp://".data) s.data = true := h2
      obtain ⟨t, hs, -⟩ := isPrefixB_cons h2'
      exact ⟨t, hs⟩
    · exact absurd h (by simp)

theorem parseURL_not_slash {s : String} {u : URLRec} (h : parseURL s = some u) :
    strStartsWith s "/" = false := by
  obtain ⟨t, hs⟩ := parseURL_head h
  show isPrefixB "/".data s.data = false
  rw [hs]
  rfl

theorem parseAfter_host {scheme r : List Char} {u : URLRec}
    (h : parseAfter scheme r = some u) :
    u.scheme = scheme ∧ u.host ≠ [] ∧ ∀ c ∈ u.host, hostEnd c = false := by
  unfold parseAfter at h
  split at h
  · exact absurd h (by simp)
  · next h2 =>
    injection h with h3
    subst h3
    refine ⟨rfl, ?_, ?_⟩
    · intro hnil
      have hnil' : List.takeWhile (fun c => !hostEnd c) r = [] := hnil
      exact h2 (by simp [hnil'])
    · intro c hc
      have := List.mem_takeWhile_imp hc
      simpa using this

theorem parseURL_host {s : String} {u : URLRec} (h : parseURL s = some u) :
    u.host ≠ [] ∧ ∀ c ∈ u.host, hostEnd c = false := by
  unfold parseURL at h
  split at h
  · exact (parseAfter_host h).2
  · split at h
    · exact (parseAfter_host h).2
    · exact absurd h (by simp)

theorem origin_ne_of_endsWith_slash {s : String} {u : URLRec}
    (h : parseURL s = some u) {b : String} (hb : strEndsWith b "/" = true) :
    u.origin ≠ b := by
  obtain ⟨hne, hmem⟩ := parseURL_host h
  intro heq
  have hdata : b.data = u.scheme ++ (':' :: '/' :: '/' :: u.host) := by
    rw [← heq]; rfl
  obtain ⟨t, ht, -⟩ :=
    isPrefixB_cons (show isPrefixB ('/' :: []) b.data.reverse = true from hb)
  cases hh : u.host.reverse with
  | nil => exact hne (by simpa using congrArg List.reverse hh)
  | cons c hs =>
    have hc : c ∈ u.host := by
      have : c ∈ u.host.reverse := by
        rw [hh]; exact List.mem_cons_self _ _
      simpa using this
    have hend := hmem c hc
    have hslash : (c == '/') = false := by
      cases hcc : (c == '/') with
      | false => rfl
      | true => simp [hostEnd, hcc] at hend
    have hhead : b.data.reverse.head? = some c := by
      rw [hdata]
      simp [List.reverse_append, List.reverse_cons, hh]
    rw [ht] at hhead
    simp only [List.head?_cons, Option.some.injEq] at hhead
    rw [← hhead] at hslash
    simp at hslash

/-! Claim theorems. -/

/-- C1: for every pair (url, baseUrl) the redirect callback prefixes a url
starting with a slash with baseUrl, passes an absolute url through
unchanged when its origin equals baseUrl, and returns baseUrl for every
other absolute url. -/
theorem redirect_guard (url baseUrl : String) :
    (strStartsWith url "/" = true →
      redirect url baseUrl = Except.ok (baseUrl ++ url)) ∧
    (∀ u, parseURL url = some u → u.origin = baseUrl →
      redirect url baseUrl = Except.ok url) ∧
    (∀ u, parseURL url = some u → u.origin ≠ baseUrl →
      redirect url baseUrl = Except.ok baseUrl) := by
  refine ⟨fun h => by simp [redirect, h], fun u hu ho => ?_, fun u hu ho => ?_⟩
  · simp [redirect, parseURL_not_slash hu, hu, ho]
  · simp [redirect, parseURL_not_slash hu, hu, ho]

/-- Witness for C1 at the three urls given in the spec. -/
theorem redirect_guard_witness :
    redirect "/dashboard" "https://app.example.com" =
      Except.ok "https://app.example.com/dashboard" ∧
    redirect "https://app.example.com/x" "https://app.example.com" =
      Except.ok "https://app.example.com/x" ∧
    redirect "https://evil.example.com/x" "https://app.example.com" =
      Except.ok "https://app.example.com" := by
  refine ⟨(redirect_guard "/dashboard" "https://app.example.com").1 (by decide),
    (redirect_guard "https://app.example.com/x" "https://app.example.com").2.1
      ⟨"https".data, "app.example.com".data, "/x".data⟩ (by decide) (by decide),
    (redirect_guard "https://evil.example.com/x" "https://app.example.com").2.2
      ⟨"https".data, "evil.example.com".data, "/x".data⟩ (by decide) (by decide)⟩

/-- C10: the same-origin test of the redirect callback is verbatim string
equality between the parsed origin and baseUrl, so every absolute url
whose origin string differs from baseUrl is coerced to baseUrl — in
particular, whenever baseUrl carries a trailing slash, every parseable
absolute url (same-origin ones included) is coerced to baseUrl, since a
parsed origin never ends in a slash. -/
theorem redirect_origin_strict (url baseUrl : String) (u : URLRec) :
    (parseURL url = some u → u.origin ≠ baseUrl →
      redirect url baseUrl = Except.ok baseUrl) ∧
    (parseURL url = some u → strEndsWith baseUrl "/" = true →
      redirect url baseUrl = Except.ok baseUrl) := by
  constructor
  · intro hu ho
    simp [redirect, parseURL_not_slash hu, hu, ho]
  · intro hu hb
    simp [redirect, parseURL_not_slash hu, hu,
      origin_ne_of_endsWith_slash hu hb]

/-- Witness for C10: a same-origin url is still coerced when baseUrl has a
trailing slash. -/
theorem redirect_origin_strict_witness :
    redirect "https://app.example.com/x" "https://app.example.com/" =
      Except.ok "https://app.example.com/" :=
  (redirect_origin_strict "https://app.example.com/x" "https://app.example.com/"
    ⟨"https".data, "app.example.com".data, "/x".data⟩).2 (by decide) (by decide)

/-- C2 counterexample: the redirect callback throws on a url that neither
starts with a slash nor parses as an absolute URL, and One Tap authorize
throws when invoked with undefined credentials while a client id is
configured — so not every operation resolves every failure to a fallback
return value. -/
theorem no_throw_cx :
    redirect "foo" "https://app.example.com" =
      Except.error "TypeError [ERR_INVALID_URL]: Invalid URL" ∧
    authorize ⟨none, some "client-id", none, none, none, none, none, none⟩
      (fun _ => ⟨true, Except.ok none⟩) ⟨0⟩ none =
      Except.error "TypeError: Cannot read properties of undefined" := by
  exact ⟨by decide, by decide⟩

/-- C2 amended: the signIn, session and jwt callbacks never throw, and jwt
maps any error escaping its body to the unchanged token; authorize does
not throw when the client id is unset or when a credentials object is
present and the verification body parses as JSON; redirect does not throw
when url starts with a slash or parses as an absolute URL. Outside these
guards the URL constructor and the credentials access can throw. -/
theorem no_throw_guarded (url baseUrl : String) (env : Env)
    (fetch : String → FetchResponse) (now : Date) (c : Credentials)
    (deps : JwtDeps) (token : Token) (user : Option AuthUser)
    (account : Option Account) :
    ((strStartsWith url "/" || (parseURL url).isSome) = true →
      exceptIsOk (redirect url baseUrl) = true) ∧
    (truthy env.NEXT_PUBLIC_AUTH_GOOGLE_ID = false ∨
        exceptIsOk (fetch (tokeninfoURL c.credential)).json = true →
      exceptIsOk (authorize env fetch now (some c)) = true) ∧
    (∀ e, jwtInner deps token user account = Except.error e →
      jwt deps token user account = token) ∧
    signInCallback user none = true := by
  refine ⟨?_, ?_, ?_, rfl⟩
  · intro h
    cases h1 : strStartsWith url "/" with
    | true => simp [redirect, h1, exceptIsOk]
    | false =>
      rw [h1] at h
      simp only [Bool.false_or, Option.isSome_iff_exists] at h
      obtain ⟨u, hu⟩ := h
      by_cases ho : u.origin = baseUrl <;>
        simp [redirect, h1, hu, ho, exceptIsOk]
  · intro h
    cases hid : truthy env.NEXT_PUBLIC_AUTH_GOOGLE_ID with
    | false => simp [authorize, hid, exceptIsOk]
    | true =>
      rcases h with h | h
      · rw [hid] at h; cases h
      · cases hok : (fetch (tokeninfoURL c.credential)).ok with
        | false => simp [authorize, hid, hok, exceptIsOk]
        | true =>
          rcases hjson : (fetch (tokeninfoURL c.credential)).json with e | op
          · rw [hjson] at h; simp [exceptIsOk] at h
          · cases op with
            | none => simp [authorize, hid, hok, hjson, exceptIsOk]
            | some p =>
              by_cases he : truthy p.email = true <;>
                simp [authorize, hid, hok, hjson, he, exceptIsOk]
  · intro e he
    simp [jwt, he]

/-- Witness for the amended C2 at concrete inputs, one per conjunct. -/
theorem no_throw_guarded_witness :
    exceptIsOk (redirect "/profile" "https://app.example.com") = true ∧
    exceptIsOk (authorize ⟨none, some "client-id", none, none, none, none, none, none⟩
      (fun _ => ⟨true, Except.ok none⟩) ⟨0⟩ (some ⟨"tok"⟩)) = true ∧
    jwt ⟨"uuid-1", "2026-01-01T00:00:00Z", Except.error "ip lookup failed",
        fun d => Except.ok d⟩ ⟨none, none⟩
      (some ⟨some "id", some "nick", some "user@example.com", none, none⟩)
      (some ⟨"oauth", "google", "sub-1"⟩) = ⟨none, none⟩ ∧
    signInCallback (some ⟨some "id", some "nick", some "user@example.com", none, none⟩)
      none = true := by
  have H := no_throw_guarded "/profile" "https://app.example.com"
    ⟨none, some "client-id", none, none, none, none, none, none⟩
    (fun _ => ⟨true, Except.ok none⟩) ⟨0⟩ ⟨"tok"⟩
    ⟨"uuid-1", "2026-01-01T00:00:00Z", Except.error "ip lookup failed",
      fun d => Except.ok d⟩ ⟨none, none⟩
    (some ⟨some "id", some "nick", some "user@example.com", none, none⟩)
    (some ⟨"oauth", "google", "sub-1"⟩)
  exact ⟨H.1 (by decide), H.2.1 (Or.inr (by decide)),
    H.2.2.1 "ip lookup failed" (by decide), H.2.2.2⟩

/-- C3: on each failure named by the spec — no client id configured,
verification call not ok, empty or absent payload, payload without an
email — One Tap authorize returns null and raises no exception. -/
theorem authorize_failure_null (env : Env) (fetch : String → FetchResponse)
    (now : Date) (credentials : Option Credentials)
    (h : oneTapFailure env fetch credentials = true) :
    authorize env fetch now credentials = Except.ok none := by
  by_cases hid : truthy env.NEXT_PUBLIC_AUTH_GOOGLE_ID = true
  · cases credentials with
    | none => simp [oneTapFailure, hid] at h
    | some c =>
      simp only [oneTapFailure, hid, Bool.not_true, Bool.false_or] at h
      cases hok : (fetch (tokeninfoURL c.credential)).ok with
      | false => simp [authorize, hid, hok]
      | true =>
        rw [hok] at h
        simp only [Bool.not_true, Bool.false_or] at h
        rcases hjson : (fetch (tokeninfoURL c.credential)).json with e | op
        · rw [hjson] at h; cases h
        · cases op with
          | none => simp [authorize, hid, hok, hjson]
          | some p =>
            rw [hjson] at h
            simp only [Bool.not_eq_true'] at h
            simp [authorize, hid, hok, hjson, h]
  · simp only [Bool.not_eq_true] at hid
    simp [authorize, hid]

/-- Witness for C3: a verification response whose payload lacks an email is
a failure and yields null. -/
theorem authorize_failure_null_witness :
    oneTapFailure ⟨none, some "client-id", none, none, none, none, none, none⟩
      (fun _ => ⟨true,
        Except.ok (some ⟨none, some "sub-1", some "Ada", some "Lovelace", true, none⟩)⟩)
      (some ⟨"tok"⟩) = true ∧
    authorize ⟨none, some "client-id", none, none, none, none, none, none⟩
      (fun _ => ⟨true,
        Except.ok (some ⟨none, some "sub-1", some "Ada", some "Lovelace", true, none⟩)⟩)
      ⟨0⟩ (some ⟨"tok"⟩) = Except.ok none :=
  ⟨by decide, authorize_failure_null _ _ _ _ (by decide)⟩

/-- C4: when user, user.email and account are present but saveUser throws,
the jwt callback still returns the token unchanged with no user
projection attached, and (the ip lookup having succeeded) its body
completes without an escaped exception. -/
theorem jwt_save_failure (deps : JwtDeps) (token : Token) (u : AuthUser)
    (a : Account) (he : truthy u.email = true)
    (hsave : ∀ d, ∃ e, deps.saveUser d = Except.error e) :
    jwt deps token (some u) (some a) = token ∧
    (∀ ip, deps.clientIp = Except.ok ip →
      jwtInner deps token (some u) (some a) = Except.ok token) := by
  have hinner : ∀ ip, deps.clientIp = Except.ok ip →
      jwtInner deps token (some u) (some a) = Except.ok token := by
    intro ip hip
    obtain ⟨e, hse⟩ := hsave (mkDbUser deps u a ip)
    simp [jwtInner, he, hip, hse]
  refine ⟨?_, hinner⟩
  cases hip : deps.clientIp with
  | error e => simp [jwt, jwtInner, he, hip]
  | ok ip => simp [jwt, hinner ip hip]

/-- Witness for C4 with a persistence collaborator that always throws. -/
theorem jwt_save_failure_witness :
    jwt ⟨"uuid-1", "2026-01-01T00:00:00Z", Except.ok "1.2.3.4",
        fun _ => Except.error "db down"⟩ ⟨some "s", none⟩
      (some ⟨some "id", some "nick", some "user@example.com", none, none⟩)
      (some ⟨"oauth", "google", "sub-1"⟩) = ⟨some "s", none⟩ ∧
    jwtInner ⟨"uuid-1", "2026-01-01T00:00:00Z", Except.ok "1.2.3.4",
        fun _ => Except.error "db down"⟩ ⟨some "s", none⟩
      (some ⟨some "id", some "nick", some "user@example.com", none, none⟩)
      (some ⟨"oauth", "google", "sub-1"⟩) = Except.ok ⟨some "s", none⟩ := by
  have H := jwt_save_failure
    ⟨"uuid-1", "2026-01-01T00:00:00Z", Except.ok "1.2.3.4",
      fun _ => Except.error "db down"⟩ ⟨some "s", none⟩
    ⟨some "id", some "nick", some "user@example.com", none, none⟩
    ⟨"oauth", "google", "sub-1"⟩ (by decide) (fun d => ⟨"db down", rfl⟩)
  exact ⟨H.1, H.2 "1.2.3.4" rfl⟩

/-- C5: the jwt callback builds the user record and consults saveUser only
when user, user.email and account are all present; in every other
invocation it returns the token with every field unchanged, leaving any
existing token.user untouched. -/
theorem jwt_first_signin_only (deps : JwtDeps) (token : Token)
    (user : Option AuthUser) (account : Option Account) :
    ((user = none ∨ account = none ∨
        ∃ u, user = some u ∧ truthy u.email = false) →
      jwt deps token user account = token) ∧
    (∀ u a ip saved, user = some u → account = some a →
      truthy u.email = true → deps.clientIp = Except.ok ip →
      deps.saveUser (mkDbUser deps u a ip) = Except.ok saved →
      jwt deps token user account = { token with user := some (userProjOf saved) }) := by
  constructor
  · rintro (rfl | rfl | ⟨u, rfl, he⟩)
    · cases account <;> simp [jwt, jwtInner]
    · cases user <;> simp [jwt, jwtInner]
    · cases account with
      | none => simp [jwt, jwtInner]
      | some a => simp [jwt, jwtInner, he]
  · rintro u a ip saved rfl rfl he hip hsave
    simp [jwt, jwtInner, he, hip, hsave]

/-- Witness for C5: a token refresh without a user leaves the token
untouched, and a first sign-in attaches the saved projection. -/
theorem jwt_first_signin_only_witness :
    jwt ⟨"uuid-1", "2026-01-01T00:00:00Z", Except.ok "9.9.9.9",
        fun d => Except.ok d⟩
      ⟨some "s", some ⟨"old-uuid", "old@example.com", "Old", "", "2025-01-01"⟩⟩
      none (some ⟨"oauth", "google", "sub-1"⟩) =
      ⟨some "s", some ⟨"old-uuid", "old@example.com", "Old", "", "2025-01-01"⟩⟩ ∧
    jwt ⟨"uuid-1", "2026-01-01T00:00:00Z", Except.ok "9.9.9.9",
        fun d => Except.ok d⟩ ⟨some "s", none⟩
      (some ⟨some "id", some "nick", some "user@example.com", some "av", none⟩)
      (some ⟨"oauth", "google", "sub-1"⟩) =
      ⟨some "s", some ⟨"uuid-1", "user@example.com", "nick", "av",
        "2026-01-01T00:00:00Z"⟩⟩ := by
  have H1 := jwt_first_signin_only
    ⟨"uuid-1", "2026-01-01T00:00:00Z", Except.ok "9.9.9.9", fun d => Except.ok d⟩
    ⟨some "s", some ⟨"old-uuid", "old@example.com", "Old", "", "2025-01-01"⟩⟩
    none (some ⟨"oauth", "google", "sub-1"⟩)
  have H2 := jwt_first_signin_only
    ⟨"uuid-1", "2026-01-01T00:00:00Z", Except.ok "9.9.9.9", fun d => Except.ok d⟩
    ⟨some "s", none⟩
    (some ⟨some "id", some "nick", some "user@example.com", some "av", none⟩)
    (some ⟨"oauth", "google", "sub-1"⟩)
  exact ⟨H1.1 (Or.inl rfl),
    H2.2 ⟨some "id", some "nick", some "user@example.com", some "av", none⟩
      ⟨"oauth", "google", "sub-1"⟩ "9.9.9.9"
      ⟨"uuid-1", "user@example.com", "nick", "av", "oauth", "google", "sub-1",
        "2026-01-01T00:00:00Z", "9.9.9.9"⟩ rfl rfl (by decide) rfl rfl⟩

/-- C6: providerMap never contains an entry whose id is google-one-tap, and
every entry is the id/name projection of a registered provider. -/
theorem providerMap_no_one_tap (env : Env) (p : ProviderInfo)
    (hp : p ∈ providerMap env) :
    p.id ≠ "google-one-tap" ∧
      ∃ prov, prov ∈ providers env ∧ p = providerData prov := by
  unfold providerMap at hp
  have h1 := List.mem_filter.mp hp
  obtain ⟨prov, hprov, hpd⟩ := List.mem_map.mp h1.1
  refine ⟨?_, prov, hprov, hpd.symm⟩
  have h2 := h1.2
  simpa using h2

/-- Witness for C6 with every provider configured. -/
theorem providerMap_no_one_tap_witness :
    (⟨"github", "GitHub"⟩ : ProviderInfo).id ≠ "google-one-tap" ∧
      ∃ prov, prov ∈ providers ⟨some "true", some "client-id", some "true",
          some "g-id", some "g-secret", some "true", some "gh-id", some "gh-secret"⟩ ∧
        (⟨"github", "GitHub"⟩ : ProviderInfo) = providerData prov :=
  providerMap_no_one_tap _ _ (by decide)

/-- C7: the provider list is the concatenation, in order One Tap, Google,
GitHub, of one descriptor per method whose feature flag equals "true" and
whose required variables are set; with no relevant variables set the list
and providerMap are empty, and with only the GitHub variables set the
list holds exactly one GitHub descriptor. -/
theorem providers_characterization (env : Env) :
    providers env =
      (if flagTrue env.NEXT_PUBLIC_AUTH_GOOGLE_ONE_TAP_ENABLED &&
          truthy env.NEXT_PUBLIC_AUTH_GOOGLE_ID then
        [Provider.credentials "google-one-tap" "google-one-tap"] else []) ++
      (if flagTrue env.NEXT_PUBLIC_AUTH_GOOGLE_ENABLED &&
          truthy env.AUTH_GOOGLE_ID && truthy env.AUTH_GOOGLE_SECRET then
        [Provider.google (jsStr env.AUTH_GOOGLE_ID) (jsStr env.AUTH_GOOGLE_SECRET)]
      else []) ++
      (if flagTrue env.NEXT_PUBLIC_AUTH_GITHUB_ENABLED &&
          truthy env.AUTH_GITHUB_ID && truthy env.AUTH_GITHUB_SECRET then
        [Provider.github (jsStr env.AUTH_GITHUB_ID) (jsStr env.AUTH_GITHUB_SECRET)]
      else []) ∧
    (providers ⟨none, none, none, none, none, none, none, none⟩ = [] ∧
      providerMap ⟨none, none, none, none, none, none, none, none⟩ = []) ∧
    (∀ i s, i ≠ "" → s ≠ "" →
      providers ⟨none, none, none, none, none, some "true", some i, some s⟩ =
        [Provider.github i s]) := by
  refine ⟨?_, ⟨by decide, by decide⟩, ?_⟩
  · unfold providers
    split_ifs <;> simp
  · intro i s hi hs
    simp [providers, flagTrue, truthy, jsStr, hi, hs]

/-- Witness for C7: only the GitHub variables set yields exactly one GitHub
descriptor. -/
theorem providers_characterization_witness :
    providers ⟨none, none, none, none, none, some "true", some "gh-id",
      some "gh-secret"⟩ = [Provider.github "gh-id" "gh-secret"] :=
  (providers_characterization ⟨none, none, none, none, none, some "true",
    some "gh-id", some "gh-secret"⟩).2.2 "gh-id" "gh-secret" (by decide) (by decide)

/-- C8: on success One Tap authorize returns exactly the object built from
the payload: id from sub, name the given and family names joined by a
single space, email, image from picture, and emailVerified a Date when
email_verified is truthy and null otherwise. -/
theorem authorize_success (env : Env) (fetch : String → FetchResponse)
    (now : Date) (c : Credentials) (p : Payload)
    (hid : truthy env.NEXT_PUBLIC_AUTH_GOOGLE_ID = true)
    (hok : (fetch (tokeninfoURL c.credential)).ok = true)
    (hjson : (fetch (tokeninfoURL c.credential)).json = Except.ok (some p))
    (hemail : truthy p.email = true) :
    authorize env fetch now (some c) = Except.ok (some
      { id := p.sub
        name := some (jsStr p.given_name ++ " " ++ jsStr p.family_name)
        email := p.email
        image := p.picture
        emailVerified := if p.email_verified then some now else none }) := by
  simp [authorize, hid, hok, hjson, hemail]

/-- Witness for C8 on a fully populated payload. -/
theorem authorize_success_witness :
    authorize ⟨none, some "client-id", none, none, none, none, none, none⟩
      (fun _ => ⟨true, Except.ok (some ⟨some "ada@example.com", some "sub-1",
        some "Ada", some "Lovelace", true, some "https://img.example.com/a.png"⟩)⟩)
      ⟨1700000000⟩ (some ⟨"tok"⟩) =
      Except.ok (some ⟨some "sub-1", some "Ada Lovelace", some "ada@example.com",
        some "https://img.example.com/a.png", some ⟨1700000000⟩⟩) :=
  authorize_success ⟨none, some "client-id", none, none, none, none, none, none⟩
    (fun _ => ⟨true, Except.ok (some ⟨some "ada@example.com", some "sub-1",
      some "Ada", some "Lovelace", true, some "https://img.example.com/a.png"⟩)⟩)
    ⟨1700000000⟩ ⟨"tok"⟩
    ⟨some "ada@example.com", some "sub-1", some "Ada", some "Lovelace", true,
      some "https://img.example.com/a.png"⟩
    (by decide) (by decide) (by decide) (by decide)

/-- C9: the session callback returns the session with its user field set to
token.user when the latter is present, and the session unchanged
otherwise. -/
theorem session_copies_token_user (s : Session) (t : Option Token) :
    (∀ tok u, t = some tok → tok.user = some u →
      sessionCallback s t = { s with user := some u }) ∧
    (t.bind Token.user = none → sessionCallback s t = s) := by
  constructor
  · rintro tok u rfl hu
    simp [sessionCallback, hu]
  · intro h
    cases t with
    | none => rfl
    | some tok =>
      have h' : tok.user = none := h
      simp [sessionCallback, h']

/-- Witness for C9: the projection is copied when present; without a
token.user the session is unchanged. -/
theorem session_copies_token_user_witness :
    sessionCallback ⟨none, "2026-02-01"⟩
      (some ⟨some "s", some ⟨"uuid-1", "ada@example.com", "Ada", "av",
        "2026-01-01"⟩⟩) =
      ⟨some ⟨"uuid-1", "ada@example.com", "Ada", "av", "2026-01-01"⟩,
        "2026-02-01"⟩ ∧
    sessionCallback ⟨none, "2026-02-01"⟩ none = ⟨none, "2026-02-01"⟩ := by
  have H1 := session_copies_token_user ⟨none, "2026-02-01"⟩
    (some ⟨some "s", some ⟨"uuid-1", "ada@example.com", "Ada", "av", "2026-01-01"⟩⟩)
  have H2 := session_copies_token_user ⟨none, "2026-02-01"⟩ none
  exact ⟨H1.1 _ _ rfl rfl, H2.2 rfl⟩

end AuthConfig
